import Mathlib

/-!
# Verification of the hidapi-rs core layer (`src/lib.rs`)

A shallow embedding of the device-enumeration and I/O abstraction layer of
hidapi-rs, together with proofs of its specified properties.

Modelling conventions:

* Native wide characters (`wchar_t`) are modelled as `Nat`, holding the `u32`
  bit pattern obtained by the cast `o(index) as u32` in the source.  A native
  wide-character pointer is `Option (List Nat)`: `none` is the null pointer,
  `some mem` is the memory the pointer designates (scanned up to the first
  zero unit, exactly as the loop in the source does).
* Byte strings (`CString` contents, `&[u8]` payloads) are `List Nat`.
* `HidResult<T> = Result<T, HidError>` is `Except HidError T`.
* Calls into the native hidapi C library are modelled by passing the native
  return value (and, where relevant, the native last-error string) as explicit
  parameters; whether the native call was reached is returned as an explicit
  `Bool` alongside the result where a claim depends on it.
-/

/-- Mirrors `enum WcharString { String(String), Raw(Vec<wchar_t>), None }` from
`src/lib.rs`.  The `String` payload is kept as the list of Unicode scalar
values (as `Nat`s) that the Rust `String` would contain. -/
inductive WcharString where
  | String (s : List Nat)
  | Raw (r : List Nat)
  | None
deriving DecidableEq, Repr

/-- Validity test of the Rust function `char::from_u32`: a `u32` converts to a `char`
exactly when it is not a surrogate and is at most `0x10FFFF`. -/
def charFromU32Valid (u : Nat) : Bool :=
  decide (u < 0xD800) || (decide (0xDFFF < u) && decide (u < 0x110000))

/-- The scanning loop of `wchar_to_string` (src/lib.rs:317-331): walks the
units before the terminator, pushing every unit on `raw_vector`, and pushing
the converted scalar on `char_vector` while no invalid unit was seen; one
invalid unit makes `invalid_char` sticky. -/
def wcharLoop : List Nat → List Nat → List Nat → Bool → WcharString
  | [], char_vector, raw_vector, invalid_char =>
      if invalid_char then WcharString.Raw raw_vector
      else WcharString.String char_vector
  | u :: rest, char_vector, raw_vector, invalid_char =>
      if invalid_char then
        wcharLoop rest char_vector (raw_vector ++ [u]) true
      else if charFromU32Valid u then
        wcharLoop rest (char_vector ++ [u]) (raw_vector ++ [u]) false
      else
        wcharLoop rest char_vector (raw_vector ++ [u]) true

/-- Embeds `unsafe fn wchar_to_string(wstr: *const wchar_t) -> WcharString`
(src/lib.rs:305-338).  A null pointer yields `None`; otherwise the memory is
scanned up to (and excluding) the first zero unit. -/
def wchar_to_string : Option (List Nat) → WcharString
  | Option.none => WcharString.None
  | Option.some mem => wcharLoop (mem.takeWhile (fun u => u ≠ 0)) [] [] false

/-- The underlying HID bus type, mirroring `pub enum BusType` (src/lib.rs:376-382). -/
inductive BusType where
  | Unknown
  | Usb
  | Bluetooth
  | I2c
  | Spi
deriving DecidableEq, Repr

/-- Mirrors `pub struct DeviceInfo` (src/lib.rs:390-404).  `path` holds the
bytes of the `CString` (without its nul terminator, as `path.as_bytes()`
yields them). -/
structure DeviceInfo where
  path : List Nat
  vendor_id : Nat
  product_id : Nat
  serial_number : WcharString
  release_number : Nat
  manufacturer_string : WcharString
  product_string : WcharString
  usage_page : Nat
  usage : Nat
  interface_number : Int
  bus_type : BusType
deriving DecidableEq, Repr

/-- The error enum of the crate, with the variants as they are constructed in
`src/lib.rs` (the definition lives in the `error` module of the crate):
`InitializationError` (line 110), `HidApiError { message }` (293, 560),
`HidApiErrorEmpty` (297, 564), `InvalidZeroSizeData` (584, 627),
`IncompleteSendError { sent, all }` (634), `SetBlockingModeError { mode }`
(663), `OpenHidDeviceWithDeviceInfoError { device_info }` (503).  The
`message` of `HidApiError` is the scalar-value list the marshalled `String`
holds. -/
inductive HidError where
  | InitializationError
  | HidApiError (message : List Nat)
  | HidApiErrorEmpty
  | InvalidZeroSizeData
  | IncompleteSendError (sent : Nat) (all : Nat)
  | SetBlockingModeError (blocking : Bool)
  | OpenHidDeviceWithDeviceInfoError (device_info : DeviceInfo)
deriving DecidableEq, Repr

/-- Mirrors `enum InitState { NotInit, Init { enumerate: bool } }`
(src/lib.rs:88-91). -/
inductive InitState where
  | NotInit
  | Init (enumerate : Bool)
deriving DecidableEq, Repr

/-- How a call to `lazy_init` terminates: `Ok(())`, `Err(e)`, or a panic. -/
inductive LazyOutcome where
  | ok
  | err (e : HidError)
  | panic
deriving DecidableEq, Repr

/-- Result record of one `lazy_init` call: its outcome, the value of the
process-wide `INIT_STATE` after the call, and whether the native `hid_init`
was invoked during the call. -/
structure LazyInitRet where
  outcome : LazyOutcome
  state : InitState
  ran_hid_init : Bool
deriving DecidableEq, Repr

/-- Embeds `fn lazy_init(do_enumerate: bool) -> HidResult<()>`
(src/lib.rs:95-130).  The process-wide `INIT_STATE` it mutates under the
mutex is passed in as `st` and returned in the result record; the return
value of the native `hid_init()` call is the parameter `hid_init_ret` (only
consulted when the call actually happens, i.e. in the `NotInit` branch). -/
def lazy_init (st : InitState) (do_enumerate : Bool) (hid_init_ret : Int) : LazyInitRet :=
  match st with
  | InitState.NotInit =>
      if hid_init_ret = -1 then
        { outcome := LazyOutcome.err HidError.InitializationError
          state := InitState.NotInit
          ran_hid_init := true }
      else
        { outcome := LazyOutcome.ok
          state := InitState.Init do_enumerate
          ran_hid_init := true }
  | InitState.Init enumerate =>
      if enumerate ≠ do_enumerate then
        { outcome := LazyOutcome.panic
          state := InitState.Init enumerate
          ran_hid_init := false }
      else
        { outcome := LazyOutcome.ok
          state := InitState.Init enumerate
          ran_hid_init := false }

/-- Embeds `check_error` (src/lib.rs:292-301 for `HidApi` and 559-568 for
`HidDevice`; both bodies are identical up to which handle they pass to
`ffi::hid_error`).  `native_error` is the wide string the native
`hid_error` call returns (`none` = null pointer).  `Except.ok` corresponds
to the Rust `Ok(HidError::HidApiError { .. })`, `Except.error` to the early
`return Err(HidError::HidApiErrorEmpty)`. -/
def check_error (native_error : Option (List Nat)) : Except HidError HidError :=
  match wchar_to_string native_error with
  | WcharString.String s => Except.ok (HidError.HidApiError s)
  | _ => Except.error HidError.HidApiErrorEmpty

/-- The Rust cast `res as usize` for `res : i32` (sign-extend, then
reinterpret as a 64-bit unsigned value). -/
def castToUsize (res : Int) : Nat :=
  (res % (2 : Int) ^ 64).toNat

/-- Embeds `HidDevice::check_size` (src/lib.rs:541-550): `-1` triggers the
last-error lookup (whose `Ok` and `Err` sides are both returned as `Err`),
any other value is returned as `res as usize`. -/
def check_size (res : Int) (native_error : Option (List Nat)) : Except HidError Nat :=
  if res = -1 then
    match check_error native_error with
    | Except.ok err => Except.error err
    | Except.error e => Except.error e
  else
    Except.ok (castToUsize res)

/-- Embeds `HidDevice::write` (src/lib.rs:582-588).  `hid_write_ret` is the
native `ffi::hid_write` return value and `native_error` the native
last-error string; the `Bool` of the result records whether the native
write was reached. -/
def write (data : List Nat) (hid_write_ret : Int) (native_error : Option (List Nat)) :
    Bool × Except HidError Nat :=
  if data.isEmpty then
    (false, Except.error HidError.InvalidZeroSizeData)
  else
    (true, check_size hid_write_ret native_error)

/-- Embeds `HidDevice::send_feature_report` (src/lib.rs:625-641).
`hid_send_ret` is the native `ffi::hid_send_feature_report` return value;
the `Bool` records whether the native call was reached. -/
def send_feature_report (data : List Nat) (hid_send_ret : Int)
    (native_error : Option (List Nat)) : Bool × Except HidError Unit :=
  if data.isEmpty then
    (false, Except.error HidError.InvalidZeroSizeData)
  else
    (true,
      match check_size hid_send_ret native_error with
      | Except.error e => Except.error e
      | Except.ok res =>
          if res ≠ data.length then
            Except.error (HidError.IncompleteSendError res data.length)
          else
            Except.ok ())

/-- Embeds `DeviceInfo::serial_number` (src/lib.rs:420-425): yields the text
only for the `String` variant, `None` for `Raw` and `None`. -/
def DeviceInfo.serial_number_text (d : DeviceInfo) : Option (List Nat) :=
  match d.serial_number with
  | WcharString.String s => Option.some s
  | _ => Option.none

/-- The three ways `DeviceInfo::open_device` can route a request: a
path-based open (`HidApi::open_path`), a serial-based open
(`HidApi::open_serial`, with the vid/pid/serial it is called with), or the
`OpenHidDeviceWithDeviceInfoError` failure carrying a clone of the
descriptor. -/
inductive OpenRoute where
  | open_path (path : List Nat)
  | open_serial (vid : Nat) (pid : Nat) (sn : List Nat)
  | openError (device_info : DeviceInfo)
deriving DecidableEq, Repr

/-- Embeds `DeviceInfo::open_device` (src/lib.rs:497-507), as the routing
decision it makes: path-open when `path.as_bytes()` is non-empty, else
serial-open when `serial_number()` yields text, else the
`OpenHidDeviceWithDeviceInfoError`. -/
def DeviceInfo.open_device (d : DeviceInfo) : OpenRoute :=
  if ¬ d.path.isEmpty then
    OpenRoute.open_path d.path
  else
    match d.serial_number_text with
    | Option.some sn => OpenRoute.open_serial d.vendor_id d.product_id sn
    | Option.none => OpenRoute.openError d

/-- The fields of the CFFI `HidDeviceInfo` record that
`conv_hid_device_info` reads.  `path` is the native C string pointer:
`none` is the null pointer, `some bytes` the bytes of the nul-terminated string;
the wide-string fields follow the `wchar_to_string` pointer convention. -/
structure FfiHidDeviceInfo where
  path : Option (List Nat)
  vendor_id : Nat
  product_id : Nat
  serial_number : Option (List Nat)
  release_number : Nat
  manufacturer_string : Option (List Nat)
  product_string : Option (List Nat)
  usage_page : Nat
  usage : Nat
  interface_number : Int
  bus_type : BusType
deriving DecidableEq, Repr

/-- Embeds `unsafe fn conv_hid_device_info` (src/lib.rs:341-355).  The body
is a single unconditional `Ok(DeviceInfo { .. })`; it contains no error
path.  Its first field copy, `CStr::from_ptr((*src).path)`, has no defined
behaviour when the path pointer is null (`CStr::from_ptr` requires a
non-null pointer), so the outer `Option` is `none` exactly in that
undefined case and `some` of the Rust result otherwise. -/
def conv_hid_device_info (src : FfiHidDeviceInfo) :
    Option (Except HidError DeviceInfo) :=
  match src.path with
  | Option.none => Option.none
  | Option.some p =>
      Option.some (Except.ok
        { path := p
          vendor_id := src.vendor_id
          product_id := src.product_id
          serial_number := wchar_to_string src.serial_number
          release_number := src.release_number
          manufacturer_string := wchar_to_string src.manufacturer_string
          product_string := wchar_to_string src.product_string
          usage_page := src.usage_page
          usage := src.usage
          interface_number := src.interface_number
          bus_type := src.bus_type })

/-- Mirrors `pub struct HidApi { device_list: Vec<DeviceInfo> }`
(src/lib.rs:139-141). -/
structure HidApi where
  device_list : List DeviceInfo
deriving DecidableEq, Repr

/-- Embeds `HidApi::get_hid_device_info_vector` (src/lib.rs:186-204): walks
the native enumeration list `nodes`, converting each node with
`conv_hid_device_info` and propagating its error with `?`.  The outer
`Option` is `none` when some node conversion has no defined behaviour. -/
def get_hid_device_info_vector (nodes : List FfiHidDeviceInfo) :
    Option (Except HidError (List DeviceInfo)) :=
  match nodes with
  | [] => Option.some (Except.ok [])
  | node :: rest =>
      match conv_hid_device_info node with
      | Option.none => Option.none
      | Option.some (Except.error e) => Option.some (Except.error e)
      | Option.some (Except.ok d) =>
          match get_hid_device_info_vector rest with
          | Option.none => Option.none
          | Option.some (Except.error e) => Option.some (Except.error e)
          | Option.some (Except.ok ds) => Option.some (Except.ok (d :: ds))

/-- Embeds `HidApi::refresh_devices` (src/lib.rs:180-184).  `nodes` is the
content of the native enumeration list returned by `ffi::hid_enumerate`;
the function returns the context after the call together with the
result.  On a conversion error the `?` returns before the assignment,
leaving the cache untouched; on success the cache is assigned the freshly
built list wholesale.  The outer `Option` propagates the undefined case of
`conv_hid_device_info`. -/
def refresh_devices (api : HidApi) (nodes : List FfiHidDeviceInfo) :
    Option (HidApi × Except HidError Unit) :=
  match get_hid_device_info_vector nodes with
  | Option.none => Option.none
  | Option.some (Except.error e) => Option.some (api, Except.error e)
  | Option.some (Except.ok l) => Option.some ({ device_list := l }, Except.ok ())

/-- Embeds `HidApi::device_list` (src/lib.rs:207-209): the iterator over the
current cache, i.e. the element sequence of the cache; the borrow is `&self`, so
the context is not modified. -/
def HidApi.device_list_iter (api : HidApi) : List DeviceInfo :=
  api.device_list

/-- A concrete descriptor used by the evaluation witnesses: vid `0x1234`,
pid `0x5678`, with the given path bytes and serial-number field. -/
def sampleDescriptor (path : List Nat) (sn : WcharString) : DeviceInfo :=
  { path := path
    vendor_id := 0x1234
    product_id := 0x5678
    serial_number := sn
    release_number := 0x0100
    manufacturer_string := WcharString.None
    product_string := WcharString.None
    usage_page := 1
    usage := 6
    interface_number := -1
    bus_type := BusType.Usb }

/-- A concrete native record used by the evaluation witnesses, with the
given path pointer and serial-number pointer. -/
def sampleFfiRecord (path : Option (List Nat)) (sn : Option (List Nat)) :
    FfiHidDeviceInfo :=
  { path := path
    vendor_id := 1
    product_id := 2
    serial_number := sn
    release_number := 0
    manufacturer_string := Option.none
    product_string := Option.none
    usage_page := 0
    usage := 0
    interface_number := -1
    bus_type := BusType.Usb }

/-! ## Lemmas about the marshalling loop -/

lemma wcharLoop_invalid (units char_vector raw_vector : List Nat) :
    wcharLoop units char_vector raw_vector true
      = WcharString.Raw (raw_vector ++ units) := by
  induction units generalizing raw_vector with
  | nil => simp [wcharLoop]
  | cons u rest ih =>
      simp only [wcharLoop, if_pos]
      rw [ih]
      simp

lemma wcharLoop_all_valid (units char_vector raw_vector : List Nat)
    (h : ∀ u ∈ units, charFromU32Valid u = true) :
    wcharLoop units char_vector raw_vector false
      = WcharString.String (char_vector ++ units) := by
  induction units generalizing char_vector raw_vector with
  | nil => simp [wcharLoop]
  | cons u rest ih =>
      have hu : charFromU32Valid u = true := h u (by simp)
      simp only [wcharLoop, if_neg Bool.false_ne_true, hu, if_pos]
      rw [ih _ _ (fun v hv => h v (by simp [hv]))]
      simp

lemma wcharLoop_some_invalid (units char_vector raw_vector : List Nat)
    (h : ∃ u ∈ units, charFromU32Valid u = false) :
    wcharLoop units char_vector raw_vector false
      = WcharString.Raw (raw_vector ++ units) := by
  induction units generalizing char_vector raw_vector with
  | nil => simp at h
  | cons u rest ih =>
      by_cases hu : charFromU32Valid u = true
      · obtain ⟨v, hv, hvbad⟩ := h
        rcases List.mem_cons.mp hv with rfl | hv
        · rw [hu] at hvbad; cases hvbad
        · simp only [wcharLoop, if_neg Bool.false_ne_true, hu, if_pos]
          rw [ih _ _ ⟨v, hv, hvbad⟩]
          simp
      · rw [Bool.not_eq_true] at hu
        simp only [wcharLoop, if_neg Bool.false_ne_true, hu]
        rw [wcharLoop_invalid]
        simp


/-! ## Claim theorems -/

/-- C1: `wchar_to_string` returns `None` (Absent) on a null pointer; when
every code unit before the terminating zero converts to a valid Unicode
scalar value it returns `String` holding the concatenated scalar values;
and when at least one unit fails to convert it returns `Raw` holding the
entire original code-unit sequence up to (and excluding) the terminator,
not a truncated prefix. -/
theorem wchar_to_string_marshalling (mem : List Nat) :
    wchar_to_string Option.none = WcharString.None ∧
    ((∀ u ∈ mem.takeWhile (fun u => u ≠ 0), charFromU32Valid u = true) →
      wchar_to_string (Option.some mem)
        = WcharString.String (mem.takeWhile (fun u => u ≠ 0))) ∧
    ((∃ u ∈ mem.takeWhile (fun u => u ≠ 0), charFromU32Valid u = false) →
      wchar_to_string (Option.some mem)
        = WcharString.Raw (mem.takeWhile (fun u => u ≠ 0))) := by
  refine ⟨rfl, ?_, ?_⟩
  · intro h
    rw [wchar_to_string, wcharLoop_all_valid _ _ _ h]
    simp
  · intro h
    rw [wchar_to_string, wcharLoop_some_invalid _ _ _ h]
    simp

/-- Witness for C1: evaluates the marshaller on `"Hi"` (units 72, 105, then
terminator) and on a sequence containing the invalid surrogate unit
`0xD800`, by applying `wchar_to_string_marshalling` at these inputs. -/
theorem wchar_to_string_marshalling_witness :
    wchar_to_string (Option.some [72, 105, 0, 33]) = WcharString.String [72, 105] ∧
    wchar_to_string (Option.some [72, 0xD800, 105, 0])
      = WcharString.Raw [72, 0xD800, 105] := by
  constructor
  · exact (wchar_to_string_marshalling [72, 105, 0, 33]).2.1 (by decide)
  · exact (wchar_to_string_marshalling [72, 0xD800, 105, 0]).2.2
      ⟨0xD800, by decide, by decide⟩

/-- C2: the process-wide init state only transitions from `NotInit` to
`Init` and never reverts; a later request with the same `enumerate` mode
succeeds without re-running the native `hid_init`; and a request with a
different mode panics rather than returning a typed error. -/
theorem lazy_init_state_machine (st : InitState) (m mode : Bool) (ret ret2 : Int) :
    ((lazy_init st mode ret).state = st ∨
      (st = InitState.NotInit ∧ (lazy_init st mode ret).state = InitState.Init mode)) ∧
    (lazy_init (InitState.Init m) m ret
      = { outcome := LazyOutcome.ok
          state := InitState.Init m
          ran_hid_init := false }) ∧
    (m ≠ mode → (lazy_init (InitState.Init m) mode ret2).outcome = LazyOutcome.panic) := by
  refine ⟨?_, ?_, ?_⟩
  · cases st with
    | NotInit =>
        by_cases h : ret = -1
        · left; simp [lazy_init, h]
        · right; exact ⟨rfl, by simp [lazy_init, h]⟩
    | Init e =>
        left
        by_cases h : e = mode <;> simp [lazy_init, h]
  · simp [lazy_init]
  · intro h
    simp [lazy_init, h]

/-- Witness for C2: applies `lazy_init_state_machine` at the concrete state
`Init true` with a mismatched request mode `false`, observing the panic
outcome, and at the matched mode, observing success without a native
re-init. -/
theorem lazy_init_state_machine_witness :
    (lazy_init (InitState.Init true) false 0).outcome = LazyOutcome.panic ∧
    lazy_init (InitState.Init true) true 7
      = { outcome := LazyOutcome.ok
          state := InitState.Init true
          ran_hid_init := false } := by
  constructor
  · exact (lazy_init_state_machine (InitState.Init true) true false 0 0).2.2 (by decide)
  · exact (lazy_init_state_machine (InitState.Init true) true false 7 0).2.1

/-- C3: `open_device` routes by priority: non-empty path opens by path (no
serial-based open is attempted); empty path with a `String` serial opens by
serial with the vendor and product ids of the descriptor itself; empty path with no
text serial fails with `OpenHidDeviceWithDeviceInfoError` carrying the
descriptor. -/
theorem open_device_routing (d : DeviceInfo) :
    (d.path ≠ [] → d.open_device = OpenRoute.open_path d.path) ∧
    (d.path = [] → ∀ sn, d.serial_number = WcharString.String sn →
        d.open_device = OpenRoute.open_serial d.vendor_id d.product_id sn) ∧
    (d.path = [] → d.serial_number_text = Option.none →
        d.open_device = OpenRoute.openError d) := by
  refine ⟨?_, ?_, ?_⟩
  · intro h
    simp [DeviceInfo.open_device, h]
  · intro hp sn hs
    simp [DeviceInfo.open_device, hp, DeviceInfo.serial_number_text, hs]
  · intro hp hs
    simp [DeviceInfo.open_device, hp, hs]

/-- Witness for C3: applies `open_device_routing` to the three scenario
descriptors of the specification — path `"/dev/x"` with absent serial,
empty path with serial `"ABC123"`, and empty path with absent serial. -/
theorem open_device_routing_witness :
    (sampleDescriptor [47, 100, 101, 118, 47, 120] WcharString.None).open_device
      = OpenRoute.open_path [47, 100, 101, 118, 47, 120] ∧
    (sampleDescriptor [] (WcharString.String [65, 66, 67, 49, 50, 51])).open_device
      = OpenRoute.open_serial 0x1234 0x5678 [65, 66, 67, 49, 50, 51] ∧
    (sampleDescriptor [] WcharString.None).open_device
      = OpenRoute.openError (sampleDescriptor [] WcharString.None) := by
  refine ⟨?_, ?_, ?_⟩
  · exact (open_device_routing _).1 (by decide)
  · exact (open_device_routing _).2.1 rfl [65, 66, 67, 49, 50, 51] rfl
  · exact (open_device_routing _).2.2 rfl rfl

/-- C10: a descriptor with an empty path and a `Raw` serial number (present
bytes, invalid encoding) yields nothing from the text accessor
`serial_number()`, so `open_device` does not attempt a serial-based open
and fails with `OpenHidDeviceWithDeviceInfoError`. -/
theorem open_device_raw_serial (d : DeviceInfo) (r : List Nat)
    (hp : d.path = []) (hs : d.serial_number = WcharString.Raw r) :
    d.serial_number_text = Option.none ∧ d.open_device = OpenRoute.openError d := by
  constructor
  · simp [DeviceInfo.serial_number_text, hs]
  · simp [DeviceInfo.open_device, hp, DeviceInfo.serial_number_text, hs]

/-- Witness for C10: applies `open_device_raw_serial` to a concrete
descriptor whose serial field holds the raw invalid unit `0xD800`. -/
theorem open_device_raw_serial_witness :
    (sampleDescriptor [] (WcharString.Raw [0xD800])).serial_number_text
      = Option.none ∧
    (sampleDescriptor [] (WcharString.Raw [0xD800])).open_device
      = OpenRoute.openError (sampleDescriptor [] (WcharString.Raw [0xD800])) :=
  open_device_raw_serial (sampleDescriptor [] (WcharString.Raw [0xD800]))
    [0xD800] rfl rfl

/-- C4: on an empty payload both `write` and `send_feature_report` fail
with `InvalidZeroSizeData` without reaching the native layer (first
component `false`); on a non-empty payload the native call is attempted
(first component `true`). -/
theorem empty_payload_never_reaches_native (data : List Nat) (ret : Int)
    (native_error : Option (List Nat)) :
    (data = [] →
      write data ret native_error
        = (false, Except.error HidError.InvalidZeroSizeData) ∧
      send_feature_report data ret native_error
        = (false, Except.error HidError.InvalidZeroSizeData)) ∧
    (data ≠ [] →
      (write data ret native_error).1 = true ∧
      (send_feature_report data ret native_error).1 = true) := by
  constructor
  · rintro rfl
    exact ⟨rfl, rfl⟩
  · intro h
    cases data with
    | nil => exact absurd rfl h
    | cons a l => exact ⟨rfl, rfl⟩

/-- Witness for C4: applies `empty_payload_never_reaches_native` to the
empty payload and to the one-byte payload `[0]`. -/
theorem empty_payload_never_reaches_native_witness :
    (write [] 3 Option.none = (false, Except.error HidError.InvalidZeroSizeData) ∧
      send_feature_report [] 3 Option.none
        = (false, Except.error HidError.InvalidZeroSizeData)) ∧
    ((write [0] 1 Option.none).1 = true ∧
      (send_feature_report [0] 1 Option.none).1 = true) := by
  constructor
  · exact (empty_payload_never_reaches_native [] 3 Option.none).1 rfl
  · exact (empty_payload_never_reaches_native [0] 1 Option.none).2 (by decide)

/-- C5: for a non-empty payload, when the native send succeeds (a
non-negative i32 byte count) but the count differs from the payload length,
`send_feature_report` fails with `IncompleteSendError` carrying exactly the
native count and the payload length; when the counts agree it returns unit
success. -/
theorem send_feature_report_all_or_nothing (data : List Nat) (ret : Int)
    (native_error : Option (List Nat)) (hdata : data ≠ [])
    (h0 : 0 ≤ ret) (h31 : ret < 2 ^ 31) :
    (ret.toNat ≠ data.length →
      send_feature_report data ret native_error
        = (true, Except.error (HidError.IncompleteSendError ret.toNat data.length))) ∧
    (ret.toNat = data.length →
      send_feature_report data ret native_error = (true, Except.ok ())) := by
  have hm1 : ret ≠ -1 := by omega
  have hcast : castToUsize ret = ret.toNat := by
    rw [castToUsize, Int.emod_eq_of_lt h0 (by omega)]
  cases data with
  | nil => exact absurd rfl hdata
  | cons a l =>
      constructor
      · intro hne
        rw [List.length_cons] at hne
        simp [send_feature_report, check_size, hm1, hcast, hne]
      · intro heq
        simp [send_feature_report, check_size, hm1, hcast, heq]

/-- Witness for C5: applies `send_feature_report_all_or_nothing` to the
three-byte payload `[1, 2, 3]` with native counts 2 (incomplete) and 3
(complete). -/
theorem send_feature_report_all_or_nothing_witness :
    send_feature_report [1, 2, 3] 2 Option.none
      = (true, Except.error (HidError.IncompleteSendError 2 3)) ∧
    send_feature_report [1, 2, 3] 3 Option.none = (true, Except.ok ()) := by
  constructor
  · exact (send_feature_report_all_or_nothing [1, 2, 3] 2 Option.none
      (by decide) (by decide) (by decide)).1 (by decide)
  · exact (send_feature_report_all_or_nothing [1, 2, 3] 3 Option.none
      (by decide) (by decide) (by decide)).2 (by decide)

/-- C7: `check_error` returns `Ok(HidApiError)` carrying exactly the native
message when the native error string marshals to valid text; when the
native string is null or marshals to `Raw` (invalid encoding), it reports
the distinct `HidApiErrorEmpty` condition instead. -/
theorem check_error_reporting (native_error : Option (List Nat)) :
    (∀ s, wchar_to_string native_error = WcharString.String s →
        check_error native_error = Except.ok (HidError.HidApiError s)) ∧
    (∀ r, wchar_to_string native_error = WcharString.Raw r →
        check_error native_error = Except.error HidError.HidApiErrorEmpty) ∧
    (native_error = Option.none →
        check_error native_error = Except.error HidError.HidApiErrorEmpty) := by
  refine ⟨?_, ?_, ?_⟩
  · intro s h
    simp [check_error, h]
  · intro r h
    simp [check_error, h]
  · rintro rfl
    rfl

/-- Witness for C7: applies `check_error_reporting` to the valid native
message `"Hi"`, to an invalid (surrogate) native message, and to the null
native string. -/
theorem check_error_reporting_witness :
    check_error (Option.some [72, 105, 0])
      = Except.ok (HidError.HidApiError [72, 105]) ∧
    check_error (Option.some [0xD800, 0])
      = Except.error HidError.HidApiErrorEmpty ∧
    check_error Option.none = Except.error HidError.HidApiErrorEmpty := by
  refine ⟨?_, ?_, ?_⟩
  · exact (check_error_reporting (Option.some [72, 105, 0])).1 [72, 105] (by decide)
  · exact (check_error_reporting (Option.some [0xD800, 0])).2.1 [0xD800] (by decide)
  · exact (check_error_reporting Option.none).2.2 rfl

/-- C9: `check_size` produces an error — the result of the last-error lookup,
whichever side of `check_error` it lands on — exactly when the native
return value is `-1`; every other value, negative values other than `-1`
included, is returned as success holding the unsigned (`as usize`) cast of
the value. -/
theorem check_size_sentinel (res : Int) (native_error : Option (List Nat)) :
    (res = -1 →
      check_size res native_error
        = Except.error
            (match check_error native_error with
              | Except.ok e => e
              | Except.error e => e)) ∧
    (res ≠ -1 → check_size res native_error = Except.ok (castToUsize res)) := by
  constructor
  · rintro rfl
    rw [check_size, if_pos rfl]
    cases check_error native_error <;> rfl
  · intro h
    rw [check_size, if_neg h]

/-- Witness for C9: applies `check_size_sentinel` to the negative non-
sentinel value `-2` (success, cast to `2 ^ 64 - 2`) and to the sentinel
`-1` with a null native error string. -/
theorem check_size_sentinel_witness :
    check_size (-2) Option.none = Except.ok (2 ^ 64 - 2) ∧
    check_size (-1) Option.none = Except.error HidError.HidApiErrorEmpty := by
  constructor
  · exact ((check_size_sentinel (-2) Option.none).2 (by decide)).trans
      (congrArg Except.ok (by decide))
  · exact (check_size_sentinel (-1) Option.none).1 rfl

/-- C8: `refresh_devices` replaces the cache of the context wholesale with the
fresh enumeration result — the new cache is the freshly built list,
independent of the previous cache — and leaves the cache untouched when
enumeration fails; `device_list` iteration is exactly the current cache
snapshot and does not modify the context. -/
theorem refresh_devices_and_device_list (api other : HidApi)
    (nodes : List FfiHidDeviceInfo) (l : List DeviceInfo) (e : HidError) :
    (get_hid_device_info_vector nodes = Option.some (Except.ok l) →
      refresh_devices api nodes
        = Option.some ({ device_list := l }, Except.ok ())) ∧
    (get_hid_device_info_vector nodes = Option.some (Except.error e) →
      refresh_devices api nodes = Option.some (api, Except.error e)) ∧
    other.device_list_iter = other.device_list := by
  refine ⟨?_, ?_, rfl⟩
  · intro h
    rw [refresh_devices, h]
  · intro h
    rw [refresh_devices, h]

/-- Witness for C8: applies `refresh_devices_and_device_list` to a context
holding a stale one-element cache and a fresh native enumeration of one
record; the stale entry is gone from the new cache. -/
theorem refresh_devices_and_device_list_witness :
    refresh_devices
        { device_list := [sampleDescriptor [] WcharString.None] }
        [sampleFfiRecord (Option.some [47]) Option.none]
      = Option.some
          ({ device_list :=
              [{ path := [47]
                 vendor_id := 1
                 product_id := 2
                 serial_number := WcharString.None
                 release_number := 0
                 manufacturer_string := WcharString.None
                 product_string := WcharString.None
                 usage_page := 0
                 usage := 0
                 interface_number := -1
                 bus_type := BusType.Usb }] },
            Except.ok ()) :=
  (refresh_devices_and_device_list
      { device_list := [sampleDescriptor [] WcharString.None] }
      { device_list := [] }
      [sampleFfiRecord (Option.some [47]) Option.none]
      [{ path := [47]
         vendor_id := 1
         product_id := 2
         serial_number := WcharString.None
         release_number := 0
         manufacturer_string := WcharString.None
         product_string := WcharString.None
         usage_page := 0
         usage := 0
         interface_number := -1
         bus_type := BusType.Usb }]
      HidError.HidApiErrorEmpty).1 rfl

/-- C6 counterexample: at a native record whose path pointer is absent, the
conversion does not fail with an enumeration-error kind — the body of
`conv_hid_device_info` is a single unconditional `Ok` and applies
`CStr::from_ptr` to the path without a null check, so on a null path
pointer it has no defined result at all (modelled `Option.none`), rather
than producing any error value. -/
theorem conv_hid_device_info_null_path_counterexample :
    conv_hid_device_info (sampleFfiRecord Option.none Option.none)
      = Option.none := rfl

/-- C6 (amended): whenever the native path pointer is present,
`conv_hid_device_info` unconditionally succeeds, marshalling every wide
string field through `wchar_to_string`; the string fields therefore degrade
to `None`/`Raw` and never fail the conversion. -/
theorem conv_hid_device_info_never_fails (src : FfiHidDeviceInfo) (p : List Nat)
    (hp : src.path = Option.some p) :
    conv_hid_device_info src
      = Option.some (Except.ok
          { path := p
            vendor_id := src.vendor_id
            product_id := src.product_id
            serial_number := wchar_to_string src.serial_number
            release_number := src.release_number
            manufacturer_string := wchar_to_string src.manufacturer_string
            product_string := wchar_to_string src.product_string
            usage_page := src.usage_page
            usage := src.usage
            interface_number := src.interface_number
            bus_type := src.bus_type }) := by
  rw [conv_hid_device_info, hp]

/-- Witness for C6 (amended): applies `conv_hid_device_info_never_fails` to
a record whose serial-number string holds the invalid surrogate `0xD800`;
the conversion still succeeds, with the serial field degraded to `Raw`. -/
theorem conv_hid_device_info_never_fails_witness :
    conv_hid_device_info (sampleFfiRecord (Option.some [47]) (Option.some [0xD800, 0]))
      = Option.some (Except.ok
          { path := [47]
            vendor_id := 1
            product_id := 2
            serial_number := WcharString.Raw [0xD800]
            release_number := 0
            manufacturer_string := WcharString.None
            product_string := WcharString.None
            usage_page := 0
            usage := 0
            interface_number := -1
            bus_type := BusType.Usb }) :=
  (conv_hid_device_info_never_fails
      (sampleFfiRecord (Option.some [47]) (Option.some [0xD800, 0])) [47] rfl).trans rfl
